import Mathlib

/-!
Verification of the mission/parameter-economy core of a virtual-companion
backend: ledger balance accounting, character parameter clamping, status
classification, cooldown tracking, mission execution, generation quota,
and payment state transitions.  Definitions are shallow embeddings of the
Python source (`app/models/*.py`, `app/api/v1/endpoints/*.py`); integers
are modelled as `Int` (Python's unbounded `int`), timestamps as `Int`
seconds, and SQL rows as lists of structures.
-/

namespace NeuroTamagotchi

/-- Character row: the companion's mutable parameters
(`params_energy`, `params_mood`, `params_bond` in `models/character.py`). -/
structure CharacterState where
  cid : Nat
  userId : Nat
  energy : Int
  mood : Int
  bond : Int
  deriving Repr, DecidableEq

/-- Embedding of `Character.update_energy`:
`self.params_energy = max(0, min(100, self.params_energy + amount))`. -/
def updateEnergy (amount : Int) (c : CharacterState) : CharacterState :=
  { c with energy := max 0 (min 100 (c.energy + amount)) }

/-- Embedding of `Character.update_mood`:
`self.params_mood = max(0, min(100, self.params_mood + amount))`. -/
def updateMood (amount : Int) (c : CharacterState) : CharacterState :=
  { c with mood := max 0 (min 100 (c.mood + amount)) }

/-- Embedding of `Character.update_bond`:
`self.params_bond = max(0, self.params_bond + amount)`. -/
def updateBond (amount : Int) (c : CharacterState) : CharacterState :=
  { c with bond := max 0 (c.bond + amount) }

/-- Embedding of `Character.calculate_status`.  Python computes
`avg = (energy + mood) / 2` with true division, so `avg` is modelled as a
rational, compared unrounded against the thresholds. -/
def calculateStatus (energy mood : Int) : String :=
  let avg : ℚ := ((energy : ℚ) + (mood : ℚ)) / 2
  if avg ≥ 80 then "happy"
  else if avg ≥ 60 then "normal"
  else if avg ≥ 40 then "bored"
  else if avg ≥ 20 then
    if energy < mood then "tired" else "sad"
  else "exhausted"

/-- User row economic state: `balance_ntg` and `free_generation_used`
(`models/user.py`). -/
structure UserState where
  balance : Int
  freeGenerationUsed : Bool
  deriving Repr, DecidableEq

/-- Embedding of `User.has_sufficient_balance`: `balance_ntg >= amount`. -/
def hasSufficientBalance (u : UserState) (amount : Int) : Bool :=
  u.balance ≥ amount

/-- Embedding of `User.deduct_balance`: returns `False` without mutation
when the balance is insufficient, else subtracts and returns `True`. -/
def deductBalance (u : UserState) (amount : Int) : Bool × UserState :=
  if hasSufficientBalance u amount then
    (true, { u with balance := u.balance - amount })
  else
    (false, u)

/-- Embedding of `User.add_balance`: `balance_ntg += amount`. -/
def addBalance (u : UserState) (amount : Int) : UserState :=
  { u with balance := u.balance + amount }

/-- Embedding of `User.use_free_generation`: one-way flip of
`free_generation_used`, returning whether it was available. -/
def useFreeGeneration (u : UserState) : Bool × UserState :=
  if u.freeGenerationUsed then (false, u)
  else (true, { u with freeGenerationUsed := true })

/-- Embedding of `User.has_free_generation`: `not free_generation_used`. -/
def hasFreeGeneration (u : UserState) : Bool :=
  !u.freeGenerationUsed

/-- Ledger operations a caller may issue against one account's balance:
`debit` is `User.deduct_balance`, `credit` is `User.add_balance`. -/
inductive LedgerOp where
  | debit (amount : Int)
  | credit (amount : Int)
  deriving Repr, DecidableEq

/-- Apply one ledger operation to a balance, as the source does:
a debit checks sufficiency first and leaves the balance unchanged on
failure; a credit always adds. -/
def applyLedgerOp (balance : Int) : LedgerOp → Int
  | .debit amount => if balance ≥ amount then balance - amount else balance
  | .credit amount => balance + amount

/-- Balance after running a whole sequence of ledger operations. -/
def runLedger (balance : Int) : List LedgerOp → Int
  | [] => balance
  | op :: ops => runLedger (applyLedgerOp balance op) ops

/-- Every credit amount mentioned in the operation list is nonnegative
(the spec constrains credit amounts; debit sufficiency is checked by the
operation itself). -/
def creditAmountsNonneg (ops : List LedgerOp) : Prop :=
  ∀ amount : Int, LedgerOp.credit amount ∈ ops → 0 ≤ amount

/-- Mission catalog row (`models/mission.py`, class `Mission`).  `mtype`
is the `type` column, an unconstrained `String(20)`. -/
structure MissionDef where
  mid : Nat
  costNtg : Int
  mtype : String
  cooldownSeconds : Int
  isActive : Bool
  deriving Repr, DecidableEq

/-- CompletedMission row (`models/mission.py`), `completed_at` in seconds. -/
structure Completion where
  userId : Nat
  charId : Nat
  missionId : Nat
  completedAt : Int
  deriving Repr, DecidableEq

/-- Database state visible to the mission endpoints: the current user's
id and economic state, and the character / mission / completion tables. -/
structure Db where
  userId : Nat
  user : UserState
  characters : List CharacterState
  missions : List MissionDef
  completions : List Completion
  deriving Repr, DecidableEq

/-- Query `Mission` by primary key (the `CompletedMission.mission`
relationship used by `can_repeat` and `time_until_repeat`). -/
def findMissionById (db : Db) (missionId : Nat) : Option MissionDef :=
  db.missions.find? (fun m => m.mid == missionId)

/-- The mission lookup at the top of `execute_mission`:
`Mission.id == mission_id, Mission.is_active == True`, `.first()`. -/
def findActiveMission (db : Db) (missionId : Nat) : Option MissionDef :=
  db.missions.find? (fun m => m.mid == missionId && m.isActive)

/-- The character lookup in `execute_mission`:
`Character.id == character_id, Character.user_id == current_user.id`. -/
def findOwnedCharacter (db : Db) (characterId : Nat) : Option CharacterState :=
  db.characters.find? (fun c => c.cid == characterId && c.userId == db.userId)

/-- The `CompletedMission` rows for one (user, character, mission) triple. -/
def tripleCompletions (db : Db) (uid cid mid : Nat) : List Completion :=
  db.completions.filter
    (fun r => r.userId == uid && r.charId == cid && r.missionId == mid)

/-- The row with the greatest `completed_at` (the SQL
`order_by(completed_at.desc()).first()`); on equal timestamps which row
wins is unspecified in the source, here the earlier-listed one. -/
def maxByCompletedAt : List Completion → Option Completion
  | [] => none
  | r :: rs =>
    match maxByCompletedAt rs with
    | none => some r
    | some best => if best.completedAt > r.completedAt then some best else some r

/-- The most recent completion of the triple, as `execute_mission` and
`check_cooldown` query it. -/
def latestCompletion (db : Db) (uid cid mid : Nat) : Option Completion :=
  maxByCompletedAt (tripleCompletions db uid cid mid)

/-- Embedding of `CompletedMission.can_repeat`: if the mission row is
gone, `True`; else `utcnow() >= completed_at + cooldown`. -/
def canRepeat (db : Db) (comp : Completion) (now : Int) : Bool :=
  match findMissionById db comp.missionId with
  | none => true
  | some m => now ≥ comp.completedAt + m.cooldownSeconds

/-- Embedding of `CompletedMission.time_until_repeat`: if the mission row
is gone, `0`; else `max(0, (completed_at + cooldown) - utcnow())` whole
seconds. -/
def timeUntilRepeat (db : Db) (comp : Completion) (now : Int) : Int :=
  match findMissionById db comp.missionId with
  | none => 0
  | some m => max 0 (comp.completedAt + m.cooldownSeconds - now)

/-- Detail string of the cooldown failure in `execute_mission`:
an f-string carrying `time_remaining // 60` minutes. -/
def cooldownDetail (timeRemaining : Int) : String :=
  "Mission on cooldown. Try again in " ++ toString (timeRemaining / 60)
    ++ " minutes."

/-- Detail string of the balance failure in `execute_mission`:
an f-string carrying the mission cost only. -/
def insufficientDetail (costNtg : Int) : String :=
  "Insufficient balance. You need " ++ toString costNtg ++ " NTG."

/-- The `HTTPException`s `execute_mission` raises: a status code and a
human-readable `detail` string, as in the source. -/
inductive ExecError where
  | missionNotFound
  | characterNotFound
  | onCooldown (detail : String)
  | insufficientBalance (detail : String)
  deriving Repr, DecidableEq

/-- HTTP status code of each failure (`404` not-found, `400` bad-request). -/
def ExecError.statusCode : ExecError → Nat
  | .missionNotFound => 404
  | .characterNotFound => 404
  | .onCooldown _ => 400
  | .insufficientBalance _ => 400

/-- Success payload of `MissionExecuteResponse`: the refreshed balance
and character parameters. -/
structure ExecOk where
  newBalance : Int
  energy : Int
  mood : Int
  bond : Int
  deriving Repr, DecidableEq

/-- The per-type parameter effect applied in `execute_mission` (the
`if mission.type == ...` chain); an unmatched type changes nothing. -/
def applyEffect (mtype : String) (c : CharacterState) : CharacterState :=
  if mtype = "feed" then updateBond 5 (updateMood 10 (updateEnergy 20 c))
  else if mtype = "hairstyle" then updateBond 10 (updateMood 15 c)
  else if mtype = "selfie" then updateBond 15 (updateMood 25 c)
  else c

/-- Replace the first element satisfying `p` by its image under `f`
(SQLAlchemy mutates the single row the `.first()` query returned). -/
def updateFirst (p : α → Bool) (f : α → α) : List α → List α
  | [] => []
  | a :: l => if p a then f a :: l else a :: updateFirst p f l

/-- The committed tail of `execute_mission` (everything after the
cooldown check passes): balance check, deduction, parameter effect,
completion insert, response. -/
def finishExecution (db : Db) (mission : MissionDef)
    (character : CharacterState) (characterId : Nat) (now : Int) :
    Except ExecError ExecOk × Db :=
  if hasSufficientBalance db.user mission.costNtg then
    let user' := (deductBalance db.user mission.costNtg).2
    let updated := applyEffect mission.mtype character
    let db' : Db :=
      { db with
        user := user'
        characters :=
          updateFirst (fun c => c.cid == characterId && c.userId == db.userId)
            (applyEffect mission.mtype) db.characters
        completions :=
          ⟨db.userId, character.cid, mission.mid, now⟩ :: db.completions }
    (Except.ok ⟨user'.balance,
      updated.energy, updated.mood, updated.bond⟩, db')
  else
    (Except.error (.insufficientBalance (insufficientDetail mission.costNtg)), db)

/-- Embedding of the `execute_mission` endpoint: resolve the active
mission, resolve the owned character, check the cooldown against the most
recent completion, then `finishExecution`.  Failures leave the state
untouched (the session is never committed before the raise). -/
def executeMission (db : Db) (missionId characterId : Nat) (now : Int) :
    Except ExecError ExecOk × Db :=
  match findActiveMission db missionId with
  | none => (Except.error .missionNotFound, db)
  | some mission =>
    match findOwnedCharacter db characterId with
    | none => (Except.error .characterNotFound, db)
    | some character =>
      match latestCompletion db db.userId character.cid mission.mid with
      | some comp =>
        if canRepeat db comp now then
          finishExecution db mission character characterId now
        else
          (Except.error
            (.onCooldown (cooldownDetail (timeUntilRepeat db comp now))), db)
      | none => finishExecution db mission character characterId now

/-- Embedding of the `check_cooldown` endpoint: `(can_execute,
time_remaining)`; with no prior completion, `(True, 0)`. -/
def checkCooldown (db : Db) (missionId characterId : Nat) (now : Int) :
    Bool × Int :=
  match latestCompletion db db.userId characterId missionId with
  | none => (true, 0)
  | some comp => (canRepeat db comp now, timeUntilRepeat db comp now)

/-- `GENERATION_COST_NTG` in `endpoints/characters.py`. -/
def generationCostNtg : Int := 100

/-- Outcome of consuming the generation quota. -/
inductive ConsumeResult where
  | usedFree
  | usedPaid
  | denied
  deriving Repr, DecidableEq

/-- The quota-consumption logic of `create_character_with_generation`:
free entitlement first (`has_free_generation` → `use_free_generation`),
else a `402` when the balance cannot cover `GENERATION_COST_NTG`, else
`deduct_balance(GENERATION_COST_NTG)`. -/
def consumeGeneration (u : UserState) : ConsumeResult × UserState :=
  if hasFreeGeneration u then
    (.usedFree, (useFreeGeneration u).2)
  else if !hasSufficientBalance u generationCostNtg then
    (.denied, u)
  else
    (.usedPaid, (deductBalance u generationCostNtg).2)

/-- The core operations that touch a user's economic state: ledger debit
(`deduct_balance`), ledger credit (`add_balance`), and quota consumption. -/
inductive UserOp where
  | debit (amount : Int)
  | credit (amount : Int)
  | consumeGen
  deriving Repr, DecidableEq

/-- Apply one core operation to the user's economic state. -/
def applyUserOp (u : UserState) : UserOp → UserState
  | .debit amount => (deductBalance u amount).2
  | .credit amount => addBalance u amount
  | .consumeGen => (consumeGeneration u).2

/-- User state after a whole sequence of core operations. -/
def runUserOps (u : UserState) : List UserOp → UserState
  | [] => u
  | op :: ops => runUserOps (applyUserOp u op) ops

/-- Payment row (`models/payment.py`): `status` is a string column whose
values are `"pending"` (default), `"completed"` and `"failed"`. -/
structure Payment where
  amountNtg : Int
  status : String
  deriving Repr, DecidableEq

/-- Embedding of `Payment.is_pending`. -/
def Payment.isPending (p : Payment) : Bool := p.status == "pending"

/-- Embedding of `Payment.is_completed`. -/
def Payment.isCompleted (p : Payment) : Bool := p.status == "completed"

/-- Embedding of `Payment.is_failed`. -/
def Payment.isFailed (p : Payment) : Bool := p.status == "failed"

/-- Embedding of `Payment.complete`. -/
def Payment.complete (p : Payment) : Payment := { p with status := "completed" }

/-- Embedding of `Payment.markFailed` (`Payment.fail` in the source). -/
def Payment.markFailed (p : Payment) : Payment := { p with status := "failed" }

/-- Outcome of the `confirm_payment` endpoint. -/
inductive ConfirmResult where
  | alreadyCompleted
  | failedError
  | confirmed
  deriving Repr, DecidableEq

/-- Embedding of `confirm_payment`: a completed payment returns
"already completed" without mutation; a failed one raises a `400`
without mutation; otherwise the payment is completed and
`amount_ntg` credited. -/
def confirmPayment (p : Payment) (u : UserState) :
    ConfirmResult × Payment × UserState :=
  if p.isCompleted then (.alreadyCompleted, p, u)
  else if p.isFailed then (.failedError, p, u)
  else (.confirmed, p.complete, addBalance u p.amountNtg)

/-- Embedding of the `payment_intent.succeeded` branch of
`stripe_webhook`: only a pending payment is completed and credited. -/
def webhookSucceeded (p : Payment) (u : UserState) : Payment × UserState :=
  if p.isPending then (p.complete, addBalance u p.amountNtg) else (p, u)

/-- Embedding of the `payment_intent.payment_failed` branch of
`stripe_webhook`: only a pending payment is marked failed. -/
def webhookFailed (p : Payment) (u : UserState) : Payment × UserState :=
  if p.isPending then (p.markFailed, u) else (p, u)

/-- The operations that drive a payment's status. -/
inductive PaymentOp where
  | confirm
  | whSucceeded
  | whFailed
  deriving Repr, DecidableEq

/-- Apply one payment-driving operation to (payment, user). -/
def applyPaymentOp (p : Payment) (u : UserState) : PaymentOp → Payment × UserState
  | .confirm => (confirmPayment p u).2
  | .whSucceeded => webhookSucceeded p u
  | .whFailed => webhookFailed p u

/-! ## Helper lemmas -/

lemma applyLedgerOp_nonneg {balance : Int} (op : LedgerOp)
    (hb : 0 ≤ balance)
    (hc : ∀ amount : Int, op = .credit amount → 0 ≤ amount) :
    0 ≤ applyLedgerOp balance op := by
  cases op with
  | debit amount =>
    simp only [applyLedgerOp]
    split <;> omega
  | credit amount =>
    have := hc amount rfl
    simp only [applyLedgerOp]
    omega

lemma runLedger_nonneg {balance : Int} (ops : List LedgerOp)
    (hb : 0 ≤ balance) (hops : creditAmountsNonneg ops) :
    0 ≤ runLedger balance ops := by
  induction ops generalizing balance with
  | nil => exact hb
  | cons op rest ih =>
    refine ih (applyLedgerOp_nonneg op hb ?_) ?_
    · intro amount heq
      exact hops amount (heq ▸ List.mem_cons_self op rest)
    · intro amount hmem
      exact hops amount (List.mem_cons_of_mem op hmem)

/-! ## Claim theorems -/

/-- C5: `adjustEnergy` and `adjustMood` set the parameter to
`clamp(value + delta, 0, 100)`, `adjustBond` sets it to
`max(0, value + delta)`, no adjustment fails (the functions are total),
and afterwards energy and mood lie in `[0, 100]` and bond is `≥ 0`,
for every delta of any magnitude or sign. -/
theorem parameter_adjust_clamps (c : CharacterState) (delta : Int) :
    updateEnergy delta c =
      { c with energy := max 0 (min 100 (c.energy + delta)) } ∧
    updateMood delta c =
      { c with mood := max 0 (min 100 (c.mood + delta)) } ∧
    updateBond delta c = { c with bond := max 0 (c.bond + delta) } ∧
    0 ≤ (updateEnergy delta c).energy ∧ (updateEnergy delta c).energy ≤ 100 ∧
    0 ≤ (updateMood delta c).mood ∧ (updateMood delta c).mood ≤ 100 ∧
    0 ≤ (updateBond delta c).bond := by
  refine ⟨rfl, rfl, rfl, ?_, ?_, ?_, ?_, ?_⟩ <;>
    simp only [updateEnergy, updateMood, updateBond] <;> omega

/-- C6: the status classifier is a pure function of `(energy, mood)`
whose buckets are decided by the unrounded average `(energy + mood) / 2`;
each boundary (80, 60, 40, 20) falls in the upper bucket, and in the
`[20, 40)` band the tie `energy ≥ mood` is classified `sad`. -/
theorem status_classifier_buckets (energy mood : Int) :
    (80 ≤ ((energy : ℚ) + mood) / 2 →
       calculateStatus energy mood = "happy") ∧
    (60 ≤ ((energy : ℚ) + mood) / 2 → ((energy : ℚ) + mood) / 2 < 80 →
       calculateStatus energy mood = "normal") ∧
    (40 ≤ ((energy : ℚ) + mood) / 2 → ((energy : ℚ) + mood) / 2 < 60 →
       calculateStatus energy mood = "bored") ∧
    (20 ≤ ((energy : ℚ) + mood) / 2 → ((energy : ℚ) + mood) / 2 < 40 →
       energy < mood → calculateStatus energy mood = "tired") ∧
    (20 ≤ ((energy : ℚ) + mood) / 2 → ((energy : ℚ) + mood) / 2 < 40 →
       mood ≤ energy → calculateStatus energy mood = "sad") ∧
    (((energy : ℚ) + mood) / 2 < 20 →
       calculateStatus energy mood = "exhausted") := by
  simp only [calculateStatus]
  refine ⟨?_, ?_, ?_, ?_, ?_, ?_⟩ <;> intros <;>
    split_ifs <;> first | rfl | linarith

/-- Witness for C6 at the bucket boundaries: average exactly 80, 60, 40
and 20 land in the upper bucket, and an average just below 20 is
`exhausted`. -/
theorem status_classifier_buckets_witness :
    calculateStatus 80 80 = "happy" ∧
    calculateStatus 60 60 = "normal" ∧
    calculateStatus 40 40 = "bored" ∧
    calculateStatus 19 21 = "tired" ∧
    calculateStatus 20 20 = "sad" ∧
    calculateStatus 19 20 = "exhausted" :=
  ⟨(status_classifier_buckets 80 80).1 (by norm_num),
   (status_classifier_buckets 60 60).2.1 (by norm_num) (by norm_num),
   (status_classifier_buckets 40 40).2.2.1 (by norm_num) (by norm_num),
   (status_classifier_buckets 19 21).2.2.2.1 (by norm_num) (by norm_num)
     (by norm_num),
   (status_classifier_buckets 20 20).2.2.2.2.1 (by norm_num) (by norm_num)
     (by norm_num),
   (status_classifier_buckets 19 20).2.2.2.2.2 (by norm_num)⟩

/-- C2: for nonnegative amounts, `deduct_balance` decrements exactly when
the balance suffices and otherwise fails without mutation; consequently a
nonnegative balance stays nonnegative after every prefix of any sequence
of debits and credits whose credit amounts are nonnegative. -/
theorem ledger_debit_iff_and_nonneg :
    (∀ (u : UserState) (amount : Int), 0 ≤ amount →
       (amount ≤ u.balance →
          deductBalance u amount =
            (true, { u with balance := u.balance - amount })) ∧
       (u.balance < amount → deductBalance u amount = (false, u))) ∧
    (∀ (ops : List LedgerOp) (b : Int), 0 ≤ b → creditAmountsNonneg ops →
       ∀ pre suf : List LedgerOp, ops = pre ++ suf →
         0 ≤ runLedger b pre) := by
  constructor
  · intro u amount _
    constructor
    · intro hle
      simp only [deductBalance, hasSufficientBalance]
      rw [if_pos (by simpa using hle)]
    · intro hlt
      simp only [deductBalance, hasSufficientBalance]
      rw [if_neg (by simpa using not_le.mpr hlt)]
  · intro ops b hb hops pre suf hsplit
    refine runLedger_nonneg pre hb ?_
    intro amount hmem
    exact hops amount (hsplit ▸ List.mem_append_left suf hmem)

/-- Witness for C2: a sufficient debit of 30 from balance 100 succeeds
leaving 70, an insufficient debit of 50 from balance 10 fails without
mutation, and the balance after the first operation of
`[debit 50, credit 20]` from 100 is nonnegative. -/
theorem ledger_debit_iff_and_nonneg_witness :
    deductBalance ⟨100, false⟩ 30 = (true, ⟨70, false⟩) ∧
    deductBalance ⟨10, false⟩ 50 = (false, ⟨10, false⟩) ∧
    0 ≤ runLedger 100 [LedgerOp.debit 50] :=
  ⟨(ledger_debit_iff_and_nonneg.1 ⟨100, false⟩ 30 (by norm_num)).1
      (by norm_num),
   (ledger_debit_iff_and_nonneg.1 ⟨10, false⟩ 50 (by norm_num)).2
      (by norm_num),
   ledger_debit_iff_and_nonneg.2 [LedgerOp.debit 50, LedgerOp.credit 20]
      100 (by norm_num)
      (by intro amount hmem; simp at hmem; omega)
      [LedgerOp.debit 50] [LedgerOp.credit 20] rfl⟩

lemma maxByCompletedAt_ne_none (a : Completion) (l : List Completion) :
    maxByCompletedAt (a :: l) ≠ none := by
  simp only [maxByCompletedAt]
  cases maxByCompletedAt l with
  | none => simp
  | some best =>
    by_cases hgt : best.completedAt > a.completedAt <;> simp [hgt]

lemma maxByCompletedAt_spec :
    ∀ {l : List Completion} {r : Completion}, maxByCompletedAt l = some r →
      r ∈ l ∧ ∀ x ∈ l, x.completedAt ≤ r.completedAt := by
  intro l
  induction l with
  | nil => intro r h; simp [maxByCompletedAt] at h
  | cons a l ih =>
    intro r h
    cases hm : maxByCompletedAt l with
    | none =>
      have hl : l = [] := by
        cases l with
        | nil => rfl
        | cons b l2 => exact absurd hm (maxByCompletedAt_ne_none b l2)
      subst hl
      simp only [maxByCompletedAt] at h
      injection h with h
      subst h
      exact ⟨List.mem_cons_self _ _, by simp⟩
    | some best =>
      obtain ⟨hbmem, hbge⟩ := ih hm
      simp only [maxByCompletedAt, hm] at h
      by_cases hgt : best.completedAt > a.completedAt
      · rw [if_pos hgt] at h
        injection h with h
        subst h
        refine ⟨List.mem_cons_of_mem _ hbmem, ?_⟩
        intro x hx
        rcases List.mem_cons.mp hx with hxa | hxl
        · rw [hxa]; exact le_of_lt hgt
        · exact hbge x hxl
      · rw [if_neg hgt] at h
        injection h with h
        subst h
        refine ⟨List.mem_cons_self _ _, ?_⟩
        intro x hx
        rcases List.mem_cons.mp hx with hxa | hxl
        · rw [hxa]
        · exact le_trans (hbge x hxl) (by omega)

lemma maxByCompletedAt_mem {l : List Completion} {r : Completion}
    (h : maxByCompletedAt l = some r) : r ∈ l :=
  (maxByCompletedAt_spec h).1

lemma maxByCompletedAt_ge {l : List Completion} {r : Completion}
    (h : maxByCompletedAt l = some r) :
    ∀ x ∈ l, x.completedAt ≤ r.completedAt :=
  (maxByCompletedAt_spec h).2

lemma tripleCompletions_missionId {db : Db} {uid cid mid : Nat}
    {r : Completion} (h : r ∈ tripleCompletions db uid cid mid) :
    r.missionId = mid := by
  have := (List.mem_filter.mp h).2
  simp only [Bool.and_eq_true, beq_iff_eq] at this
  exact this.2

/-- C4: with the mission resolvable, a triple with no completion history
is eligible with zero time remaining; otherwise eligibility holds exactly
when `now` has reached the most recent completion (maximal
`completed_at`) plus the cooldown, the remaining time is
`max 0 ((completedAt + cooldown) - now)` whole seconds, never negative,
and it is `0` exactly when the triple is eligible. -/
theorem cooldown_eligibility_and_time_remaining (db : Db)
    (missionId characterId : Nat) (now : Int) (md : MissionDef)
    (hm : findMissionById db missionId = some md) :
    (latestCompletion db db.userId characterId missionId = none →
       checkCooldown db missionId characterId now = (true, 0)) ∧
    (∀ comp, latestCompletion db db.userId characterId missionId = some comp →
       comp ∈ tripleCompletions db db.userId characterId missionId ∧
       (∀ r ∈ tripleCompletions db db.userId characterId missionId,
          r.completedAt ≤ comp.completedAt) ∧
       ((checkCooldown db missionId characterId now).1 = true ↔
          comp.completedAt + md.cooldownSeconds ≤ now) ∧
       (checkCooldown db missionId characterId now).2 =
         max 0 (comp.completedAt + md.cooldownSeconds - now) ∧
       0 ≤ (checkCooldown db missionId characterId now).2 ∧
       ((checkCooldown db missionId characterId now).2 = 0 ↔
          (checkCooldown db missionId characterId now).1 = true)) := by
  constructor
  · intro hnone
    simp only [checkCooldown, hnone]
  · intro comp hsome
    have hmem : comp ∈ tripleCompletions db db.userId characterId missionId :=
      maxByCompletedAt_mem hsome
    have hmid : comp.missionId = missionId := tripleCompletions_missionId hmem
    have hcr : canRepeat db comp now =
        decide (now ≥ comp.completedAt + md.cooldownSeconds) := by
      simp only [canRepeat, hmid, hm]
    have htr : timeUntilRepeat db comp now =
        max 0 (comp.completedAt + md.cooldownSeconds - now) := by
      simp only [timeUntilRepeat, hmid, hm]
    refine ⟨hmem, maxByCompletedAt_ge hsome, ?_, ?_, ?_, ?_⟩
    · simp only [checkCooldown, hsome, hcr, decide_eq_true_eq, ge_iff_le]
    · simp only [checkCooldown, hsome, htr]
    · simp only [checkCooldown, hsome, htr, le_max_iff, le_refl, true_or]
    · simp only [checkCooldown, hsome, htr, hcr, decide_eq_true_eq, ge_iff_le]
      omega

/-- Witness for C4: a completion stamped 970 with a 60-second cooldown,
queried at `now = 1000`, is ineligible with 30 seconds remaining. -/
theorem cooldown_eligibility_and_time_remaining_witness :
    (checkCooldown
        ⟨1, ⟨100, false⟩, [⟨3, 1, 50, 50, 0⟩], [⟨7, 50, "feed", 60, true⟩],
          [⟨1, 3, 7, 970⟩]⟩ 7 3 1000).2 =
      max 0 ((970 : Int) + 60 - 1000) ∧
    ((checkCooldown
        ⟨1, ⟨100, false⟩, [⟨3, 1, 50, 50, 0⟩], [⟨7, 50, "feed", 60, true⟩],
          [⟨1, 3, 7, 970⟩]⟩ 7 3 1000).1 = true ↔
      (970 : Int) + 60 ≤ 1000) :=
  ⟨((cooldown_eligibility_and_time_remaining
        ⟨1, ⟨100, false⟩, [⟨3, 1, 50, 50, 0⟩], [⟨7, 50, "feed", 60, true⟩],
          [⟨1, 3, 7, 970⟩]⟩ 7 3 1000 ⟨7, 50, "feed", 60, true⟩ rfl).2
      ⟨1, 3, 7, 970⟩ rfl).2.2.2.1,
   ((cooldown_eligibility_and_time_remaining
        ⟨1, ⟨100, false⟩, [⟨3, 1, 50, 50, 0⟩], [⟨7, 50, "feed", 60, true⟩],
          [⟨1, 3, 7, 970⟩]⟩ 7 3 1000 ⟨7, 50, "feed", 60, true⟩ rfl).2
      ⟨1, 3, 7, 970⟩ rfl).2.2.1⟩

lemma applyUserOp_free_monotone (u : UserState) (op : UserOp)
    (h : u.freeGenerationUsed = true) :
    (applyUserOp u op).freeGenerationUsed = true := by
  cases op with
  | debit amount =>
    simp only [applyUserOp, deductBalance]
    split <;> simp [h]
  | credit amount => simpa [applyUserOp, addBalance] using h
  | consumeGen =>
    have hf : hasFreeGeneration u = false := by simp [hasFreeGeneration, h]
    cases hs : hasSufficientBalance u generationCostNtg <;>
      simp [applyUserOp, consumeGeneration, hf, hs, deductBalance, h]

/-- C7: a user who has not used the free generation gets `UsedFree` from
`consume` with the flag flipped and the balance untouched; the flag stays
`true` under every sequence of core operations; and a consume with the
flag already `true` yields `UsedPaid` (debiting `GENERATION_COST_NTG`)
when the balance suffices and `Denied` (no mutation) otherwise — never
`UsedFree` again. -/
theorem free_generation_one_shot_and_monotonic :
    (∀ u : UserState, u.freeGenerationUsed = false →
       consumeGeneration u =
         (.usedFree, { u with freeGenerationUsed := true })) ∧
    (∀ (u : UserState) (ops : List UserOp), u.freeGenerationUsed = true →
       (runUserOps u ops).freeGenerationUsed = true) ∧
    (∀ u : UserState, u.freeGenerationUsed = true →
       (generationCostNtg ≤ u.balance →
          consumeGeneration u =
            (.usedPaid, { u with balance := u.balance - generationCostNtg })) ∧
       (u.balance < generationCostNtg →
          consumeGeneration u = (.denied, u))) := by
  refine ⟨?_, ?_, ?_⟩
  · intro u h
    simp [consumeGeneration, hasFreeGeneration, useFreeGeneration, h]
  · intro u ops h
    induction ops generalizing u with
    | nil => exact h
    | cons op rest ih =>
      exact ih (applyUserOp u op) (applyUserOp_free_monotone u op h)
  · intro u h
    constructor
    · intro hle
      simp [consumeGeneration, hasFreeGeneration, h, hasSufficientBalance,
        hle, deductBalance]
    · intro hlt
      simp [consumeGeneration, hasFreeGeneration, h, hasSufficientBalance,
        not_le.mpr hlt]

/-- Witness for C7: from `(balance 150, flag false)` the first consume is
`UsedFree` keeping balance 150; consuming again from the resulting state
is `UsedPaid` with balance 50; after `[consume, debit 20, credit 5]` the
flag is still `true`; and from `(balance 40, flag true)` consume is
`Denied` unchanged. -/
theorem free_generation_one_shot_and_monotonic_witness :
    consumeGeneration ⟨150, false⟩ = (.usedFree, ⟨150, true⟩) ∧
    consumeGeneration ⟨150, true⟩ = (.usedPaid, ⟨50, true⟩) ∧
    (runUserOps ⟨150, true⟩
        [UserOp.consumeGen, UserOp.debit 20, UserOp.credit 5]
      ).freeGenerationUsed = true ∧
    consumeGeneration ⟨40, true⟩ = (.denied, ⟨40, true⟩) :=
  ⟨free_generation_one_shot_and_monotonic.1 ⟨150, false⟩ rfl,
   (free_generation_one_shot_and_monotonic.2.2 ⟨150, true⟩ rfl).1
     (by norm_num [generationCostNtg]),
   free_generation_one_shot_and_monotonic.2.1 ⟨150, true⟩
     [UserOp.consumeGen, UserOp.debit 20, UserOp.credit 5] rfl,
   (free_generation_one_shot_and_monotonic.2.2 ⟨40, true⟩ rfl).2
     (by norm_num [generationCostNtg])⟩

/-- C8: payment status is a strict one-way machine.  Completed and failed
are terminal under confirm and both webhook branches (with no credit);
confirming a pending payment completes it and credits `amount_ntg`
exactly once, and confirming it again is a no-op; from pending every
operation lands in completed or failed. -/
theorem payment_status_one_way :
    (∀ (p : Payment) (u : UserState) (op : PaymentOp),
       p.status = "completed" → applyPaymentOp p u op = (p, u)) ∧
    (∀ (p : Payment) (u : UserState) (op : PaymentOp),
       p.status = "failed" → applyPaymentOp p u op = (p, u)) ∧
    (∀ (p : Payment) (u : UserState), p.status = "pending" →
       confirmPayment p u =
         (.confirmed, p.complete, addBalance u p.amountNtg)) ∧
    (∀ (p : Payment) (u : UserState), p.status = "completed" →
       confirmPayment p u = (.alreadyCompleted, p, u)) ∧
    (∀ (p : Payment) (u : UserState), p.status = "failed" →
       confirmPayment p u = (.failedError, p, u)) ∧
    (∀ (p : Payment) (u : UserState) (op : PaymentOp), p.status = "pending" →
       (applyPaymentOp p u op).1.status = "completed" ∨
       (applyPaymentOp p u op).1.status = "failed") := by
  refine ⟨?_, ?_, ?_, ?_, ?_, ?_⟩
  · intro p u op h
    cases op <;>
      simp [applyPaymentOp, confirmPayment, webhookSucceeded, webhookFailed,
        Payment.isPending, Payment.isCompleted, Payment.isFailed, h]
  · intro p u op h
    cases op <;>
      simp [applyPaymentOp, confirmPayment, webhookSucceeded, webhookFailed,
        Payment.isPending, Payment.isCompleted, Payment.isFailed, h]
  · intro p u h
    simp [confirmPayment, Payment.isCompleted, Payment.isFailed, h]
  · intro p u h
    simp [confirmPayment, Payment.isCompleted, h]
  · intro p u h
    simp [confirmPayment, Payment.isCompleted, Payment.isFailed, h]
  · intro p u op h
    cases op <;>
      simp [applyPaymentOp, confirmPayment, webhookSucceeded, webhookFailed,
        Payment.isPending, Payment.isCompleted, Payment.isFailed, h,
        Payment.complete, Payment.markFailed]

/-- Witness for C8: a pending payment of 500 NTG over balance 100
confirms to completed with balance 600; confirming that completed
payment again changes nothing; every operation on the completed payment
is the identity; and a failed payment stays failed and uncredited. -/
theorem payment_status_one_way_witness :
    confirmPayment ⟨500, "pending"⟩ ⟨100, false⟩ =
      (.confirmed, Payment.complete ⟨500, "pending"⟩,
        addBalance ⟨100, false⟩ 500) ∧
    confirmPayment ⟨500, "completed"⟩ ⟨600, false⟩ =
      (.alreadyCompleted, ⟨500, "completed"⟩, ⟨600, false⟩) ∧
    applyPaymentOp ⟨500, "completed"⟩ ⟨600, false⟩ .whSucceeded =
      (⟨500, "completed"⟩, ⟨600, false⟩) ∧
    applyPaymentOp ⟨500, "failed"⟩ ⟨100, false⟩ .confirm =
      (⟨500, "failed"⟩, ⟨100, false⟩) :=
  ⟨payment_status_one_way.2.2.1 ⟨500, "pending"⟩ ⟨100, false⟩ rfl,
   payment_status_one_way.2.2.2.1 ⟨500, "completed"⟩ ⟨600, false⟩ rfl,
   payment_status_one_way.1 ⟨500, "completed"⟩ ⟨600, false⟩ .whSucceeded rfl,
   payment_status_one_way.2.1 ⟨500, "failed"⟩ ⟨100, false⟩ .confirm rfl⟩

lemma applyEffect_feed (c : CharacterState) :
    applyEffect "feed" c =
      { c with
        energy := max 0 (min 100 (c.energy + 20)),
        mood := max 0 (min 100 (c.mood + 10)),
        bond := max 0 (c.bond + 5) } := rfl

lemma applyEffect_hairstyle (c : CharacterState) :
    applyEffect "hairstyle" c =
      { c with
        mood := max 0 (min 100 (c.mood + 15)),
        bond := max 0 (c.bond + 10) } := rfl

lemma applyEffect_selfie (c : CharacterState) :
    applyEffect "selfie" c =
      { c with
        mood := max 0 (min 100 (c.mood + 25)),
        bond := max 0 (c.bond + 15) } := rfl

lemma applyEffect_other {t : String} (hf : t ≠ "feed")
    (hh : t ≠ "hairstyle") (hs : t ≠ "selfie") (c : CharacterState) :
    applyEffect t c = c := by
  simp [applyEffect, hf, hh, hs]

lemma updateFirst_of_id {α : Type} {p : α → Bool} {f : α → α}
    (hf : ∀ a, f a = a) : ∀ l : List α, updateFirst p f l = l := by
  intro l
  induction l with
  | nil => rfl
  | cons a l ih =>
    simp only [updateFirst]
    split <;> simp [hf, ih]

lemma finishExecution_ok (db : Db) (mission : MissionDef)
    (character : CharacterState) (characterId : Nat) (now : Int)
    (hb : mission.costNtg ≤ db.user.balance) :
    finishExecution db mission character characterId now =
      (Except.ok ⟨db.user.balance - mission.costNtg,
        (applyEffect mission.mtype character).energy,
        (applyEffect mission.mtype character).mood,
        (applyEffect mission.mtype character).bond⟩,
       { db with
         user := { db.user with balance := db.user.balance - mission.costNtg }
         characters := updateFirst
           (fun c => c.cid == characterId && c.userId == db.userId)
           (applyEffect mission.mtype) db.characters
         completions :=
           ⟨db.userId, character.cid, mission.mid, now⟩ :: db.completions }) := by
  have hsb : hasSufficientBalance db.user mission.costNtg = true := by
    simp [hasSufficientBalance, hb]
  simp [finishExecution, hsb, deductBalance]

lemma finishExecution_insufficient (db : Db) (mission : MissionDef)
    (character : CharacterState) (characterId : Nat) (now : Int)
    (hb : db.user.balance < mission.costNtg) :
    finishExecution db mission character characterId now =
      (Except.error
        (.insufficientBalance (insufficientDetail mission.costNtg)), db) := by
  have hsb : hasSufficientBalance db.user mission.costNtg = false := by
    simp [hasSufficientBalance]
    omega
  simp [finishExecution, hsb]

lemma executeMission_past_cooldown (db : Db) (missionId characterId : Nat)
    (now : Int) (mission : MissionDef) (character : CharacterState)
    (hm : findActiveMission db missionId = some mission)
    (hc : findOwnedCharacter db characterId = some character)
    (hcd : ∀ comp,
      latestCompletion db db.userId character.cid mission.mid = some comp →
      canRepeat db comp now = true) :
    executeMission db missionId characterId now =
      finishExecution db mission character characterId now := by
  simp only [executeMission, hm, hc]
  cases hlc : latestCompletion db db.userId character.cid mission.mid with
  | none => rfl
  | some comp => simp [hcd comp hlc]

/-- C1: when the mission resolves as active, the companion belongs to the
requesting account, the cooldown has elapsed, and the balance covers the
cost, execution succeeds: balance drops by exactly `cost_ntg`, the
parameters move by the fixed per-type table (feed: energy +20 / mood +10
/ bond +5; hairstyle: mood +15 / bond +10; selfie: mood +25 / bond +15,
each clamped), and exactly one completion stamped `now` is prepended to
the history. -/
theorem mission_execute_success (db : Db) (missionId characterId : Nat)
    (now : Int) (mission : MissionDef) (character : CharacterState)
    (hm : findActiveMission db missionId = some mission)
    (hc : findOwnedCharacter db characterId = some character)
    (hcd : ∀ comp,
      latestCompletion db db.userId character.cid mission.mid = some comp →
      canRepeat db comp now = true)
    (hb : mission.costNtg ≤ db.user.balance) :
    executeMission db missionId characterId now =
      (Except.ok ⟨db.user.balance - mission.costNtg,
        (applyEffect mission.mtype character).energy,
        (applyEffect mission.mtype character).mood,
        (applyEffect mission.mtype character).bond⟩,
       { db with
         user := { db.user with balance := db.user.balance - mission.costNtg }
         characters := updateFirst
           (fun c => c.cid == characterId && c.userId == db.userId)
           (applyEffect mission.mtype) db.characters
         completions :=
           ⟨db.userId, character.cid, mission.mid, now⟩ :: db.completions }) ∧
    (∀ c : CharacterState, applyEffect "feed" c =
      { c with
        energy := max 0 (min 100 (c.energy + 20)),
        mood := max 0 (min 100 (c.mood + 10)),
        bond := max 0 (c.bond + 5) }) ∧
    (∀ c : CharacterState, applyEffect "hairstyle" c =
      { c with
        mood := max 0 (min 100 (c.mood + 15)),
        bond := max 0 (c.bond + 10) }) ∧
    (∀ c : CharacterState, applyEffect "selfie" c =
      { c with
        mood := max 0 (min 100 (c.mood + 25)),
        bond := max 0 (c.bond + 15) }) :=
  ⟨(executeMission_past_cooldown db missionId characterId now mission
      character hm hc hcd).trans
    (finishExecution_ok db mission character characterId now hb),
   applyEffect_feed, applyEffect_hairstyle, applyEffect_selfie⟩

/-- Spec scenario of §8, used by the witness: account balance 100, one
feed mission id 7 costing 50 with a one-hour cooldown, one companion id 3
with energy 50, mood 50, bond 0, no history. -/
def scenarioDb : Db :=
  { userId := 1
    user := ⟨100, false⟩
    characters := [⟨3, 1, 50, 50, 0⟩]
    missions := [⟨7, 50, "feed", 3600, true⟩]
    completions := [] }

/-- Witness for C1, the spec's own scenario: balance 100 executing the
feed mission costing 50 on a companion `energy=50, mood=50, bond=0`
yields balance 50, energy 70, mood 60, bond 5 and one completion. -/
theorem mission_execute_success_witness :
    executeMission scenarioDb 7 3 1000 =
      (Except.ok ⟨50, 70, 60, 5⟩,
       { userId := 1
         user := ⟨50, false⟩
         characters := [⟨3, 1, 70, 60, 5⟩]
         missions := [⟨7, 50, "feed", 3600, true⟩]
         completions := [⟨1, 3, 7, 1000⟩] }) :=
  ((mission_execute_success scenarioDb 7 3 1000 ⟨7, 50, "feed", 3600, true⟩
      ⟨3, 1, 50, 50, 0⟩ rfl rfl (fun _ h => nomatch h) (by decide)).1).trans
    rfl

lemma executeMission_missionNotFound (db : Db) (missionId characterId : Nat)
    (now : Int) (hm : findActiveMission db missionId = none) :
    executeMission db missionId characterId now =
      (Except.error .missionNotFound, db) := by
  simp [executeMission, hm]

lemma executeMission_characterNotFound (db : Db) (missionId characterId : Nat)
    (now : Int) (mission : MissionDef)
    (hm : findActiveMission db missionId = some mission)
    (hc : findOwnedCharacter db characterId = none) :
    executeMission db missionId characterId now =
      (Except.error .characterNotFound, db) := by
  simp [executeMission, hm, hc]

lemma executeMission_onCooldown (db : Db) (missionId characterId : Nat)
    (now : Int) (mission : MissionDef) (character : CharacterState)
    (comp : Completion)
    (hm : findActiveMission db missionId = some mission)
    (hc : findOwnedCharacter db characterId = some character)
    (hlc : latestCompletion db db.userId character.cid mission.mid = some comp)
    (hcr : canRepeat db comp now = false) :
    executeMission db missionId characterId now =
      (Except.error
        (.onCooldown (cooldownDetail (timeUntilRepeat db comp now))), db) := by
  simp [executeMission, hm, hc, hlc, hcr]

lemma executeMission_insufficient (db : Db) (missionId characterId : Nat)
    (now : Int) (mission : MissionDef) (character : CharacterState)
    (hm : findActiveMission db missionId = some mission)
    (hc : findOwnedCharacter db characterId = some character)
    (hcd : ∀ comp,
      latestCompletion db db.userId character.cid mission.mid = some comp →
      canRepeat db comp now = true)
    (hb : db.user.balance < mission.costNtg) :
    executeMission db missionId characterId now =
      (Except.error
        (.insufficientBalance (insufficientDetail mission.costNtg)), db) :=
  (executeMission_past_cooldown db missionId characterId now mission character
      hm hc hcd).trans
    (finishExecution_insufficient db mission character characterId now hb)

/-- C3: `execute` fails with exactly one typed error checked in the fixed
order mission → companion → cooldown → balance, and every failure leaves
the whole state (balance, companion parameters, completion history)
untouched: the returned state is the input state.  The cooldown failure
needs no balance hypothesis, showing it is tested first. -/
theorem mission_execute_error_order_and_frame (db : Db)
    (missionId characterId : Nat) (now : Int) :
    (findActiveMission db missionId = none →
       executeMission db missionId characterId now =
         (Except.error .missionNotFound, db)) ∧
    (∀ mission, findActiveMission db missionId = some mission →
       findOwnedCharacter db characterId = none →
       executeMission db missionId characterId now =
         (Except.error .characterNotFound, db)) ∧
    (∀ mission character comp,
       findActiveMission db missionId = some mission →
       findOwnedCharacter db characterId = some character →
       latestCompletion db db.userId character.cid mission.mid = some comp →
       canRepeat db comp now = false →
       executeMission db missionId characterId now =
         (Except.error
           (.onCooldown (cooldownDetail (timeUntilRepeat db comp now))), db)) ∧
    (∀ mission character,
       findActiveMission db missionId = some mission →
       findOwnedCharacter db characterId = some character →
       (∀ comp,
          latestCompletion db db.userId character.cid mission.mid = some comp →
          canRepeat db comp now = true) →
       db.user.balance < mission.costNtg →
       executeMission db missionId characterId now =
         (Except.error
           (.insufficientBalance (insufficientDetail mission.costNtg)), db)) :=
  ⟨fun hm => executeMission_missionNotFound db missionId characterId now hm,
   fun mission hm hc =>
     executeMission_characterNotFound db missionId characterId now mission hm hc,
   fun mission character comp hm hc hlc hcr =>
     executeMission_onCooldown db missionId characterId now mission character
       comp hm hc hlc hcr,
   fun mission character hm hc hcd hb =>
     executeMission_insufficient db missionId characterId now mission
       character hm hc hcd hb⟩

/-- State for the witness of C3: the §8 scenario with balance 10 and a
mission costing 50. -/
def poorDb : Db := { scenarioDb with user := ⟨10, false⟩ }

/-- Witness for C3, the spec's scenario: balance 10 against cost 50 is
`InsufficientBalance` with no state mutated, and a missing mission id is
`MissionNotFound`. -/
theorem mission_execute_error_order_and_frame_witness :
    executeMission poorDb 7 3 1000 =
      (Except.error
        (.insufficientBalance (insufficientDetail 50)), poorDb) ∧
    executeMission poorDb 99 3 1000 =
      (Except.error .missionNotFound, poorDb) :=
  ⟨(mission_execute_error_order_and_frame poorDb 7 3 1000).2.2.2
      ⟨7, 50, "feed", 3600, true⟩ ⟨3, 1, 50, 50, 0⟩ rfl rfl
      (fun _ h => nomatch h) (by decide),
   (mission_execute_error_order_and_frame poorDb 99 3 1000).1 rfl⟩

/-- C10: an active mission whose stored type is none of the three known
strings still debits the ledger, records exactly one completion, and
returns success, while the companion table is left completely
unchanged — the parameter-effect chain silently matches nothing. -/
theorem unknown_mission_type_still_charges_frame (db : Db)
    (missionId characterId : Nat) (now : Int) (mission : MissionDef)
    (character : CharacterState)
    (hm : findActiveMission db missionId = some mission)
    (hc : findOwnedCharacter db characterId = some character)
    (hcd : ∀ comp,
      latestCompletion db db.userId character.cid mission.mid = some comp →
      canRepeat db comp now = true)
    (hb : mission.costNtg ≤ db.user.balance)
    (hf : mission.mtype ≠ "feed") (hh : mission.mtype ≠ "hairstyle")
    (hs : mission.mtype ≠ "selfie") :
    executeMission db missionId characterId now =
      (Except.ok ⟨db.user.balance - mission.costNtg,
        character.energy, character.mood, character.bond⟩,
       { db with
         user := { db.user with balance := db.user.balance - mission.costNtg }
         completions :=
           ⟨db.userId, character.cid, mission.mid, now⟩ :: db.completions }) := by
  have heff : ∀ c, applyEffect mission.mtype c = c :=
    applyEffect_other hf hh hs
  rw [(executeMission_past_cooldown db missionId characterId now mission
        character hm hc hcd).trans
      (finishExecution_ok db mission character characterId now hb)]
  rw [heff character, updateFirst_of_id heff db.characters]

/-- State for the witness of C10: the §8 scenario but with mission type
`"dance"`, unknown to the effect table. -/
def danceDb : Db :=
  { scenarioDb with missions := [⟨7, 50, "dance", 3600, true⟩] }

/-- Witness for C10: executing the type-`"dance"` mission debits 50 and
records one completion but leaves energy, mood and bond exactly as they
were. -/
theorem unknown_mission_type_still_charges_frame_witness :
    executeMission danceDb 7 3 1000 =
      (Except.ok ⟨50, 50, 50, 0⟩,
       { userId := 1
         user := ⟨50, false⟩
         characters := [⟨3, 1, 50, 50, 0⟩]
         missions := [⟨7, 50, "dance", 3600, true⟩]
         completions := [⟨1, 3, 7, 1000⟩] }) :=
  (unknown_mission_type_still_charges_frame danceDb 7 3 1000
      ⟨7, 50, "dance", 3600, true⟩ ⟨3, 1, 50, 50, 0⟩ rfl rfl
      (fun _ h => nomatch h) (by decide) (by decide) (by decide)
      (by decide)).trans rfl

/-- Account with balance 10 against the 50-NTG feed mission. -/
def lowDbA : Db := { scenarioDb with user := ⟨10, false⟩ }

/-- Same state but with balance 20; used to show the failure value does
not depend on the available balance. -/
def lowDbB : Db := { scenarioDb with user := ⟨20, false⟩ }

/-- Scenario with a 60-second-cooldown mission completed at 970:
30 seconds remain at `now = 1000`. -/
def cdDbA : Db :=
  { scenarioDb with
    missions := [⟨7, 50, "feed", 60, true⟩]
    completions := [⟨1, 3, 7, 970⟩] }

/-- Same but completed at 999: 59 seconds remain at `now = 1000`. -/
def cdDbB : Db :=
  { scenarioDb with
    missions := [⟨7, 50, "feed", 60, true⟩]
    completions := [⟨1, 3, 7, 999⟩] }

/-- Counterexample to C9: the failures carry only human-readable strings.
Accounts with available balances 10 and 20 receive the *identical*
`InsufficientBalance` value (so the available balance is not a readable
field of the result), and cooldown states with 30 and 59 seconds
remaining receive the *identical* `OnCooldown` value, its string showing
`0 minutes` (so the remaining seconds are not a readable field either). -/
theorem exec_failure_details_counterexample :
    (executeMission lowDbA 7 3 1000).1 =
      Except.error (ExecError.insufficientBalance
        "Insufficient balance. You need 50 NTG.") ∧
    (executeMission lowDbB 7 3 1000).1 = (executeMission lowDbA 7 3 1000).1 ∧
    lowDbA.user.balance = 10 ∧ lowDbB.user.balance = 20 ∧
    (executeMission cdDbA 7 3 1000).1 =
      Except.error (ExecError.onCooldown
        "Mission on cooldown. Try again in 0 minutes.") ∧
    (executeMission cdDbB 7 3 1000).1 = (executeMission cdDbA 7 3 1000).1 ∧
    (checkCooldown cdDbA 7 3 1000).2 = 30 ∧
    (checkCooldown cdDbB 7 3 1000).2 = 59 :=
  ⟨rfl, rfl, rfl, rfl, rfl, rfl, by decide, by decide⟩

/-- C9 as amended: the typed failures of `execute` are HTTP errors
(status 400) whose machine-visible payload is a single human-readable
`detail` string: the `OnCooldown` string embeds the remaining time as
whole *minutes* (`time_remaining // 60`), and the `InsufficientBalance`
string embeds only the required cost — the available balance appears in
neither. -/
theorem exec_failure_details_human_strings (db : Db)
    (missionId characterId : Nat) (now : Int) (mission : MissionDef)
    (character : CharacterState)
    (hm : findActiveMission db missionId = some mission)
    (hc : findOwnedCharacter db characterId = some character) :
    (∀ comp,
       latestCompletion db db.userId character.cid mission.mid = some comp →
       canRepeat db comp now = false →
       executeMission db missionId characterId now =
         (Except.error (ExecError.onCooldown
           ("Mission on cooldown. Try again in "
             ++ toString (timeUntilRepeat db comp now / 60)
             ++ " minutes.")), db) ∧
       ExecError.statusCode
         (ExecError.onCooldown (cooldownDetail (timeUntilRepeat db comp now)))
         = 400) ∧
    ((∀ comp,
        latestCompletion db db.userId character.cid mission.mid = some comp →
        canRepeat db comp now = true) →
      db.user.balance < mission.costNtg →
      executeMission db missionId characterId now =
        (Except.error (ExecError.insufficientBalance
          ("Insufficient balance. You need "
            ++ toString mission.costNtg ++ " NTG.")), db) ∧
      ExecError.statusCode
        (ExecError.insufficientBalance (insufficientDetail mission.costNtg))
        = 400) :=
  ⟨fun comp hlc hcr =>
    ⟨executeMission_onCooldown db missionId characterId now mission character
        comp hm hc hlc hcr, rfl⟩,
   fun hcd hb =>
    ⟨executeMission_insufficient db missionId characterId now mission
        character hm hc hcd hb, rfl⟩⟩

/-- Witness for the amended C9: at balance 10 and cost 50 the failure is
the literal string naming 50 NTG, and with 30 seconds of cooldown left
the failure is the literal string `0 minutes`. -/
theorem exec_failure_details_human_strings_witness :
    executeMission lowDbA 7 3 1000 =
      (Except.error (ExecError.insufficientBalance
        ("Insufficient balance. You need " ++ toString (50 : Int)
          ++ " NTG.")), lowDbA) ∧
    executeMission cdDbA 7 3 1000 =
      (Except.error (ExecError.onCooldown
        ("Mission on cooldown. Try again in "
          ++ toString (timeUntilRepeat cdDbA ⟨1, 3, 7, 970⟩ 1000 / 60)
          ++ " minutes.")), cdDbA) :=
  ⟨((exec_failure_details_human_strings lowDbA 7 3 1000
        ⟨7, 50, "feed", 3600, true⟩ ⟨3, 1, 50, 50, 0⟩ rfl rfl).2
      (fun _ h => nomatch h) (by decide)).1,
   ((exec_failure_details_human_strings cdDbA 7 3 1000
        ⟨7, 50, "feed", 60, true⟩ ⟨3, 1, 50, 50, 0⟩ rfl rfl).1
      ⟨1, 3, 7, 970⟩ rfl (by decide)).1⟩

end NeuroTamagotchi
